import Mathlib

/-!
Shallow embedding of the label-pix-sync data-synchronization core
(`src/services/googleSheets.ts` and the endpoint normalization in
`src/components/GoogleSheetsSetup.tsx`).

JavaScript strings are modelled with Lean `String`; the string operations
the source uses (`split`, `trim`, `replace(/^"/,'')`, `startsWith`) are
reimplemented structurally over `List Char` so that every definition is
executable and kernel-reducible.  The browser `localStorage` slot holding
the single JSON blob is modelled as `Option Blob`: `Blob.snap xs` is a
stored JSON encoding of the snapshot `xs` (JSON round-trips these records
identically), `Blob.corrupt` is a stored value `JSON.parse` rejects.
-/

/-- `ImageData` from `ImageGallery.tsx`: `{ id: string; url: string;
label: string; comments?: string }`.  The optional field is `Option`. -/
structure ImageData where
  id : String
  url : String
  label : String
  comments : Option String := none
deriving Repr, DecidableEq

/-- JS `String.prototype.split(sep)` on a single-character separator,
over the character list.  `"".split(c) = [""]`, `",".split(',') = ["",""]`. -/
def splitOnChar (sep : Char) : List Char → List (List Char)
  | [] => [[]]
  | c :: cs =>
    match splitOnChar sep cs with
    | [] => [[]]
    | g :: gs => if c = sep then [] :: g :: gs else (c :: g) :: gs

/-- Whitespace characters stripped by JS `String.prototype.trim`
(ASCII subset; the inputs in this repository are ASCII). -/
def isJsWs (c : Char) : Bool :=
  c = ' ' || c = '\t' || c = '\n' || c = '\r' || c = '\x0b' || c = '\x0c'

/-- JS `String.prototype.trim` over the character list. -/
def trimList (l : List Char) : List Char :=
  ((l.dropWhile isJsWs).reverse.dropWhile isJsWs).reverse

/-- One cell of a CSV row, cleaned as in `parseCSV`:
`cell.replace(/^"/, '').replace(/"$/, '').trim()` — drop one leading
double quote if present, then one trailing double quote if present,
then trim. -/
def cleanCell (l : List Char) : List Char :=
  let s1 := match l with
            | '"' :: cs => cs
            | other => other
  let s2 := if s1.getLast? = some '"' then s1.dropLast else s1
  trimList s2

/-- One iteration of the `parseCSV` loop body at line index `i`
(`i` counts from 1 at the first line after the header): trim the line,
skip it when blank, split on commas, clean each cell, destructure the
first three cells as `id,url,label` (missing cells behave as empty, as
JS `undefined` does under `\x7c\x7c` and the short-circuited `startsWith`),
keep the record only when the url is non-empty and starts with `http`,
defaulting an empty id to `i.toString()` and an empty label to
`"Untitled"`. -/
def parseLine (i : Nat) (rawLine : List Char) : Option ImageData :=
  let line := trimList rawLine
  if line = [] then none
  else
    let cells := (splitOnChar ',' line).map cleanCell
    let id := cells.getD 0 []
    let url := cells.getD 1 []
    let label := cells.getD 2 []
    if url ≠ [] ∧ "http".data.isPrefixOf url then
      some { id := String.mk (if id = [] then (toString i).data else id)
           , url := String.mk url
           , label := String.mk (if label = [] then "Untitled".data else label)
           , comments := none }
    else
      none

/-- The `for (let i = 1; ...)` loop of `parseCSV` over the lines after
the header, threading the line index. -/
def parseLines : Nat → List (List Char) → List ImageData
  | _, [] => []
  | i, l :: ls =>
    match parseLine i l with
    | some img => img :: parseLines (i + 1) ls
    | none => parseLines (i + 1) ls

/-- `GoogleSheetsService.parseCSV` over the character list:
split on newlines, skip the header row (index 0), run the loop from
index 1. -/
def parseCSVList (csv : List Char) : List ImageData :=
  parseLines 1 ((splitOnChar '\n' csv).drop 1)

/-- `GoogleSheetsService.parseCSV(csvText)`. -/
def parseCSV (csvText : String) : List ImageData :=
  parseCSVList csvText.data

example : parseCSV "ID,URL,Label\n1,https://x/a.jpg,Foo\n,https://x/b.jpg,\n2,not-a-url,Bar\n" =
    [ { id := "1", url := "https://x/a.jpg", label := "Foo" }
    , { id := "2", url := "https://x/b.jpg", label := "Untitled" } ] := by decide

/-- `DEMO_IMAGES` from `googleSheets.ts`, verbatim. -/
def DEMO_IMAGES : List ImageData :=
  [ { id := "1"
    , url := "https://images.unsplash.com/photo-1506905925346-21bda4d32df4?w=800&h=800&fit=crop"
    , label := "Mountain Landscape" }
  , { id := "2"
    , url := "https://images.unsplash.com/photo-1441974231531-c6227db76b6e?w=800&h=800&fit=crop"
    , label := "Forest Path" }
  , { id := "3"
    , url := "https://images.unsplash.com/photo-1506905925346-21bda4d32df4?w=800&h=800&fit=crop&auto=format&q=80"
    , label := "Ocean Sunset" }
  , { id := "4"
    , url := "https://images.unsplash.com/photo-1518837695005-2083093ee35b?w=800&h=800&fit=crop"
    , label := "Desert Dunes" }
  , { id := "5"
    , url := "https://images.unsplash.com/photo-1501594907352-04cda38ebc29?w=800&h=800&fit=crop"
    , label := "Tropical Beach" }
  , { id := "6"
    , url := "https://images.unsplash.com/photo-1447752875215-b2761acb3c5d?w=800&h=800&fit=crop"
    , label := "Rolling Hills" } ]

/-- The value stored in the single `localStorage` slot under
`STORAGE_KEY`: either a JSON encoding of a snapshot (`snap`) or a
payload `JSON.parse` rejects (`corrupt`). -/
inductive Blob where
  | snap (xs : List ImageData)
  | corrupt
deriving Repr, DecidableEq

/-- The `localStorage` slot: `none` when the key is absent. -/
def Cache := Option Blob
deriving instance Repr, DecidableEq for Cache

/-- `GoogleSheetsConfig`: `{ sheetUrl?: string; useMockData?: boolean }`.
The constructor defaults `useMockData` to `true`. -/
structure GoogleSheetsConfig where
  sheetUrl : Option String := none
  useMockData : Bool := true
deriving Repr, DecidableEq

/-- Errors thrown by service operations (`throw new Error(...)` sites). -/
inductive ServiceError where
  | notFound          -- 'Image not found'
  | noEndpoint        -- 'Google Sheets URL not configured'
  | httpError (status : Nat)  -- `HTTP error! status: ...`
  | transport         -- fetch / response.text() rejection
deriving Repr, DecidableEq

/-- One outcome of the `fetch(sheetUrl)` round trip, as the environment
input of a remote fetch: a success with a decoded body, a non-success
HTTP status, a transport failure, or a failure to read the body. -/
inductive NetOutcome where
  | success (body : String)
  | httpFailure (status : Nat)
  | transportFailure
  | bodyReadFailure
deriving Repr, DecidableEq

/-- `GoogleSheetsService.initializeData()`: return the stored snapshot
when present and parseable; otherwise (absent key, or a corrupt payload
whose parse error is caught and logged) seed the cache with
`DEMO_IMAGES` and return it.  Result: the returned snapshot and the
cache state afterwards. -/
def initializeData : Cache → List ImageData × Cache
  | some (.snap xs) => (xs, some (.snap xs))
  | some .corrupt => (DEMO_IMAGES, some (.snap DEMO_IMAGES))
  | none => (DEMO_IMAGES, some (.snap DEMO_IMAGES))

/-- The `try` block of `fetchImages` in `Remote` mode: throw when no
endpoint is configured, throw on a non-ok response or transport/body
failure, otherwise parse the body as CSV.  (`parseCSV` itself is total
and never throws.) -/
def fetchRemote (config : GoogleSheetsConfig) (net : NetOutcome) :
    Except ServiceError (List ImageData) :=
  match config.sheetUrl with
  | none => .error .noEndpoint
  | some _ =>
    match net with
    | .success body => .ok (parseCSV body)
    | .httpFailure status => .error (.httpError status)
    | .transportFailure => .error .transport
    | .bodyReadFailure => .error .transport

/-- `GoogleSheetsService.fetchImages()`: in mock/demo mode delegate to
`initializeData` (after an artificial delay, irrelevant to the result);
otherwise run the remote fetch and, in the `catch` of any failure, fall
back to `initializeData`.  The result is `Except`-typed to make the
no-hard-failure contract a theorem rather than a typing artifact: the
function is written exactly as the `try/catch` in the source. -/
def fetchImages (config : GoogleSheetsConfig) (net : NetOutcome)
    (cache : Cache) : Except ServiceError (List ImageData × Cache) :=
  if config.useMockData then
    .ok (initializeData cache)
  else
    match fetchRemote config net with
    | .ok xs => .ok (xs, cache)
    | .error _ => .ok (initializeData cache)

/-- `findIndex` followed by an in-place mutation at the found index,
as one operation: `none` when `findIndex` returns `-1`, otherwise the
list with `f` applied to the first element satisfying `p`. -/
def updateFirst (p : ImageData → Bool) (f : ImageData → ImageData) :
    List ImageData → Option (List ImageData)
  | [] => none
  | x :: xs =>
    if p x then some (f x :: xs)
    else (updateFirst p f xs).map (fun ys => x :: ys)

/-- `GoogleSheetsService.updateImageLabel(id, newLabel)`: load the
snapshot via `initializeData` (which may seed the cache), throw
`'Image not found'` when no record has the id, otherwise set the label
at the found index and persist the whole snapshot.  Result: the
thrown-or-ok outcome together with the cache state when the call
returns. -/
def updateImageLabel (id newLabel : String) (cache : Cache) :
    Except ServiceError Unit × Cache :=
  let (images, cache1) := initializeData cache
  match updateFirst (fun img => img.id = id)
      (fun img => { img with label := newLabel }) images with
  | none => (.error .notFound, cache1)
  | some images' => (.ok (), some (.snap images'))

/-- `GoogleSheetsService.addImage(url, label)`: load the snapshot, build
a record with `id = Date.now().toString()` (the clock reading `now` is
an input of the model), append it, persist, return it. -/
def addImage (url label : String) (now : Nat) (cache : Cache) :
    ImageData × Cache :=
  let (images, _) := initializeData cache
  let newImage : ImageData := { id := toString now, url := url, label := label }
  (newImage, some (.snap (images ++ [newImage])))

/-- `GoogleSheetsService.deleteImage(id)`: load the snapshot, filter the
id out, persist the filtered snapshot (no error when absent). -/
def deleteImage (id : String) (cache : Cache) : Cache :=
  let (images, _) := initializeData cache
  some (.snap (images.filter (fun img => img.id ≠ id)))

/-- `GoogleSheetsService.setSheetUrl(url)`. -/
def setSheetUrl (url : String) (config : GoogleSheetsConfig) :
    GoogleSheetsConfig :=
  { sheetUrl := some url, useMockData := false }

/-- `GoogleSheetsService.resetToDemo()`: set mock mode and remove the
stored value. -/
def resetToDemo (config : GoogleSheetsConfig) (cache : Cache) :
    GoogleSheetsConfig × Cache :=
  ({ config with useMockData := true }, none)

/-- Modelled from the spec: the service method `updateImageComments(id,
newComments)` is absent from `googleSheets.ts` (only its caller
`handleUpdateComments` exists); §4.3 specifies `updateComments(id,
newComments) -> void: same contract as updateLabel for the comments
field`, so this follows `updateImageLabel` with the comments field
mutated instead of the label. -/
def updateImageComments (id newComments : String) (cache : Cache) :
    Except ServiceError Unit × Cache :=
  let (images, cache1) := initializeData cache
  match updateFirst (fun img => img.id = id)
      (fun img => { img with comments := some newComments }) images with
  | none => (.error .notFound, cache1)
  | some images' => (.ok (), some (.snap images'))

/-- One character class step of the regex `[a-zA-Z0-9-_]`. -/
def isIdChar (c : Char) : Bool :=
  c.isAlpha || c.isDigit || c = '-' || c = '_'

/-- The literal part of the regex `\/spreadsheets\/d\/([a-zA-Z0-9-_]+)`. -/
def sheetLit : List Char := "/spreadsheets/d/".data

/-- `url.match(/\/spreadsheets\/d\/([a-zA-Z0-9-_]+)/)`, returning the
first capture group of the leftmost match: scan left to right; at a
position where the literal matches and is followed by at least one
id character, capture the maximal id-character run; otherwise keep
scanning. -/
def findSheetId : List Char → Option (List Char)
  | [] => none
  | c :: cs =>
    if sheetLit.isPrefixOf (c :: cs) then
      let sid := ((c :: cs).drop sheetLit.length).takeWhile isIdChar
      if sid = [] then findSheetId cs else some sid
    else findSheetId cs

/-- The error thrown by `convertToCSVUrl` ('Invalid Google Sheets URL'),
which §7 names `InvalidEndpointError`. -/
inductive SetupError where
  | invalidEndpoint
deriving Repr, DecidableEq

/-- `convertToCSVUrl(url)` from `GoogleSheetsSetup.tsx`: extract the
sheet id with the regex, throw when there is no match, otherwise build
the published-CSV URL. -/
def convertToCSVUrl (url : String) : Except SetupError String :=
  match findSheetId url.data with
  | none => .error .invalidEndpoint
  | some sid =>
    .ok ("https://docs.google.com/spreadsheets/d/e/" ++ String.mk sid
          ++ "/pub?output=csv")

/-- The pattern of C4 as a predicate on the character list: the literal
`/spreadsheets/d/` occurs, immediately followed by at least one
character of the class `[a-zA-Z0-9-_]`. -/
def HasSheetPattern (l : List Char) : Prop :=
  ∃ pre c post, l = pre ++ sheetLit ++ c :: post ∧ isIdChar c = true

/-! ## Helper lemmas -/

theorem splitOnChar_ne_nil (sep : Char) (l : List Char) :
    splitOnChar sep l ≠ [] := by
  cases l with
  | nil => simp [splitOnChar]
  | cons c cs =>
    rw [splitOnChar]
    cases hcs : splitOnChar sep cs with
    | nil => simp
    | cons g gs =>
      by_cases hc : c = sep <;> simp [hc]

theorem splitOnChar_append_sep (sep : Char) (h body : List Char)
    (hh : sep ∉ h) :
    splitOnChar sep (h ++ sep :: body) = h :: splitOnChar sep body := by
  induction h with
  | nil =>
    show splitOnChar sep (sep :: body) = [] :: splitOnChar sep body
    rw [splitOnChar]
    cases hb : splitOnChar sep body with
    | nil => exact absurd hb (splitOnChar_ne_nil sep body)
    | cons g gs => simp
  | cons c h' ih =>
    have hc : c ≠ sep := fun hcs => hh (hcs ▸ List.mem_cons_self c h')
    have ih' := ih (fun hm => hh (List.mem_cons_of_mem c hm))
    show splitOnChar sep (c :: (h' ++ sep :: body)) = (c :: h') :: splitOnChar sep body
    rw [splitOnChar, ih']
    simp [hc]

theorem updateFirst_eq_none {p : ImageData → Bool} {f : ImageData → ImageData}
    {xs : List ImageData} (h : ∀ x ∈ xs, p x = false) :
    updateFirst p f xs = none := by
  induction xs with
  | nil => rfl
  | cons x xs ih =>
    have hx := h x (List.mem_cons_self x xs)
    simp only [updateFirst, hx]
    simp [ih (fun y hy => h y (List.mem_cons_of_mem x hy))]

theorem updateFirst_eq_some {p : ImageData → Bool} {f : ImageData → ImageData}
    {xs : List ImageData} (h : ∃ x ∈ xs, p x = true) :
    ∃ l a r, xs = l ++ a :: r ∧ p a = true ∧ (∀ x ∈ l, p x = false) ∧
      updateFirst p f xs = some (l ++ f a :: r) := by
  induction xs with
  | nil => simp at h
  | cons x xs ih =>
    by_cases hx : p x = true
    · exact ⟨[], x, xs, rfl, hx, by simp, by simp [updateFirst, hx]⟩
    · have hx' : p x = false := by simpa using hx
      obtain ⟨y, hy, hpy⟩ := h
      rcases List.mem_cons.mp hy with rfl | hy'
      · exact absurd hpy hx
      · obtain ⟨l, a, r, hsplit, hpa, hall, hupd⟩ := ih ⟨y, hy', hpy⟩
        refine ⟨x :: l, a, r, by simp [hsplit], hpa, ?_, ?_⟩
        · intro z hz
          rcases List.mem_cons.mp hz with rfl | hz'
          · exact hx'
          · exact hall z hz'
        · simp [updateFirst, hx', hupd]

/-! ## Claims -/

/-- C6: `initialize()` is idempotent — for every starting cache state,
two consecutive `initializeData` calls with no intervening mutation
return identical snapshots, and the second call leaves the cache state
exactly as the first call left it (no re-seeding when an entry exists). -/
theorem C6_initializeData_idempotent (cache : Cache) :
    (initializeData (initializeData cache).2).1 = (initializeData cache).1 ∧
    (initializeData (initializeData cache).2).2 = (initializeData cache).2 := by
  rcases cache with _ | b
  · exact ⟨rfl, rfl⟩
  · cases b <;> exact ⟨rfl, rfl⟩

/-- C5: for every prior configuration and cache contents and every
network outcome, `resetToDemo()` followed by `fetchImages()` returns
exactly the built-in demo set — which has exactly the six records with
ids 1–6 in order — and reseeds the cache with it. -/
theorem C5_resetToDemo_fetchImages (config : GoogleSheetsConfig)
    (cache : Cache) (net : NetOutcome) :
    fetchImages (resetToDemo config cache).1 net (resetToDemo config cache).2 =
      .ok (DEMO_IMAGES, some (.snap DEMO_IMAGES)) ∧
    DEMO_IMAGES.map (fun img => img.id) = ["1", "2", "3", "4", "5", "6"] ∧
    DEMO_IMAGES.length = 6 := by
  refine ⟨?_, by decide, by decide⟩
  simp [resetToDemo, fetchImages, initializeData]

/-- C1: `fetchImages()` always returns a snapshot and never propagates
a hard failure: for every configuration, network outcome and cache
state the result is `.ok`; in mock/demo mode it is exactly the result
of `initializeData`; and whenever the remote adapter fails (missing
endpoint, HTTP failure, transport failure, or unreadable body) the
result is the `initializeData` fallback. -/
theorem C1_fetchImages_total_fallback (config : GoogleSheetsConfig)
    (net : NetOutcome) (cache : Cache) :
    ∃ result, fetchImages config net cache = .ok result ∧
      (config.useMockData = true → result = initializeData cache) ∧
      (∀ e, fetchRemote config net = .error e → result = initializeData cache) := by
  by_cases hm : config.useMockData = true
  · exact ⟨initializeData cache, by simp [fetchImages, hm], fun _ => rfl, fun _ _ => rfl⟩
  · have hm' : config.useMockData = false := by simpa using hm
    cases hr : fetchRemote config net with
    | ok xs =>
      refine ⟨(xs, cache), by simp [fetchImages, hm', hr], fun h => absurd h hm, ?_⟩
      intro e he
      exact absurd he (by simp)
    | error e =>
      exact ⟨initializeData cache, by simp [fetchImages, hm', hr],
        fun h => absurd h hm, fun _ _ => rfl⟩

/-- Witness for C1: in the default demo configuration with a transport
failure and an empty cache, `fetchImages` succeeds with the
`initializeData` result. -/
theorem C1_witness :
    ∃ result, fetchImages { sheetUrl := none, useMockData := true }
        .transportFailure none = .ok result ∧
      result = initializeData none := by
  obtain ⟨r, hok, hmock, _⟩ :=
    C1_fetchImages_total_fallback { sheetUrl := none, useMockData := true }
      .transportFailure none
  exact ⟨r, hok, hmock rfl⟩

/-- C2 counterexample: with an empty cache slot and an id absent from
the cache-backed snapshot (the seeded demo set), `updateImageLabel`
does fail with the not-found error, but the stored value after the
failed call (the seeded demo snapshot) differs from the stored value
before it (absent) — refuting the claim that the persisted snapshot is
unchanged for every prior cache state. -/
theorem C2_counterexample :
    ((initializeData none).1.all (fun img => img.id != "nonexistent-id") = true) ∧
    (updateImageLabel "nonexistent-id" "x" none).1 = .error .notFound ∧
    ¬ (updateImageLabel "nonexistent-id" "x" none).2 = none :=
  ⟨by decide, rfl, by decide⟩

/-- C2 (amended): for every cache slot already holding a valid
snapshot and every id not occurring in it, `updateImageLabel` fails
with the not-found error and the stored value after the failed call
equals the stored value before it.  (When the slot is empty or corrupt
the failing call instead leaves the freshly seeded demo snapshot in
storage.) -/
theorem C2_updateImageLabel_notFound (xs : List ImageData)
    (id newLabel : String) (h : ∀ img ∈ xs, img.id ≠ id) :
    updateImageLabel id newLabel (some (.snap xs)) =
      (.error .notFound, some (.snap xs)) := by
  have hnone : updateFirst (fun img => img.id = id)
      (fun img => { img with label := newLabel }) xs = none :=
    updateFirst_eq_none (fun x hx => by simpa using h x hx)
  simp [updateImageLabel, initializeData, hnone]

/-- Witness for C2 (amended): a concrete snapshot not containing the
id "zzz" is left unchanged by the failing update. -/
theorem C2_witness :
    updateImageLabel "zzz" "New" (some (.snap DEMO_IMAGES)) =
      (.error .notFound, some (.snap DEMO_IMAGES)) :=
  C2_updateImageLabel_notFound DEMO_IMAGES "zzz" "New" (by decide)

/-- C7 (the service method is modelled from the spec, see
`updateImageComments`): for every id absent from the cache-backed
snapshot the operation fails with the not-found error, and for every id
present it rewrites exactly the first record carrying that id, setting
its comments to the new value, and persists the full snapshot. -/
theorem C7_updateImageComments_contract (id newComments : String)
    (cache : Cache) :
    ((∀ img ∈ (initializeData cache).1, img.id ≠ id) →
      updateImageComments id newComments cache =
        (.error .notFound, (initializeData cache).2)) ∧
    ((∃ img ∈ (initializeData cache).1, img.id = id) →
      ∃ l a r, (initializeData cache).1 = l ++ a :: r ∧ a.id = id ∧
        (∀ x ∈ l, x.id ≠ id) ∧
        updateImageComments id newComments cache =
          (.ok (), some (.snap (l ++ { a with comments := some newComments } :: r)))) := by
  constructor
  · intro h
    have hnone : updateFirst (fun img => img.id = id)
        (fun img => { img with comments := some newComments })
        (initializeData cache).1 = none :=
      updateFirst_eq_none (fun x hx => by simpa using h x hx)
    simp only [updateImageComments]
    rw [hnone]
  · intro h
    obtain ⟨y, hy, hyid⟩ := h
    obtain ⟨l, a, r, hsplit, hpa, hall, hupd⟩ :=
      updateFirst_eq_some (p := fun img => img.id = id)
        (f := fun img => { img with comments := some newComments })
        ⟨y, hy, by simpa using hyid⟩
    refine ⟨l, a, r, hsplit, by simpa using hpa,
      fun x hx => by simpa using hall x hx, ?_⟩
    simp only [updateImageComments]
    rw [hupd]

/-- Witness for C7: on the seeded demo snapshot, updating the comments
of the record with id "2" succeeds and persists the snapshot with only
that record's comments changed, and updating an absent id fails. -/
theorem C7_witness :
    (updateImageComments "zzz" "note" (some (.snap DEMO_IMAGES)) =
      (.error .notFound, some (.snap DEMO_IMAGES))) ∧
    (∃ l a r, DEMO_IMAGES = l ++ a :: r ∧ a.id = "2" ∧ (∀ x ∈ l, x.id ≠ "2") ∧
      updateImageComments "2" "note" (some (.snap DEMO_IMAGES)) =
        (.ok (), some (.snap (l ++ { a with comments := some "note" } :: r)))) := by
  constructor
  · have := (C7_updateImageComments_contract "zzz" "note"
      (some (.snap DEMO_IMAGES))).1 (by decide)
    simpa [initializeData] using this
  · have := (C7_updateImageComments_contract "2" "note"
      (some (.snap DEMO_IMAGES))).2
      ⟨DEMO_IMAGES.get ⟨1, by decide⟩, by decide, by decide⟩
    simpa [initializeData] using this

/-- C10 (implicit): every mutation operation loads the snapshot through
`initializeData`, which seeds the demo set whenever the stored value is
absent or unparseable; hence a failing `updateImageLabel`, a
`deleteImage` of an absent id, or an `addImage`, each started on an
empty or corrupt cache slot, leaves the slot holding the (possibly
modified) 6-record demo snapshot rather than leaving it empty. -/
theorem C10_mutations_seed_demo (cache : Cache)
    (hc : cache = none ∨ cache = some .corrupt) :
    (∀ id newLabel, (∀ img ∈ DEMO_IMAGES, img.id ≠ id) →
      updateImageLabel id newLabel cache =
        (.error .notFound, some (.snap DEMO_IMAGES))) ∧
    (∀ id, (∀ img ∈ DEMO_IMAGES, img.id ≠ id) →
      deleteImage id cache = some (.snap DEMO_IMAGES)) ∧
    (∀ url label now, (addImage url label now cache).2 =
      some (.snap (DEMO_IMAGES ++ [{ id := toString now, url := url, label := label }]))) := by
  have hinit : initializeData cache = (DEMO_IMAGES, some (.snap DEMO_IMAGES)) := by
    rcases hc with rfl | rfl <;> rfl
  refine ⟨?_, ?_, ?_⟩
  · intro id newLabel h
    have hnone : updateFirst (fun img => img.id = id)
        (fun img => { img with label := newLabel }) DEMO_IMAGES = none :=
      updateFirst_eq_none (fun x hx => by simpa using h x hx)
    simp only [updateImageLabel, hinit]
    rw [hnone]
  · intro id h
    have hfilter : DEMO_IMAGES.filter (fun img => img.id ≠ id) = DEMO_IMAGES :=
      List.filter_eq_self.mpr (fun x hx => by simpa using h x hx)
    simp only [deleteImage, hinit]
    rw [hfilter]
  · intro url label now
    simp only [addImage, hinit]

/-- Witness for C10: starting from the absent cache slot, the failing
update with the absent id "zzz" and the delete of "zzz" both leave the
seeded demo snapshot, and an add leaves the demo snapshot plus the new
record. -/
theorem C10_witness :
    updateImageLabel "zzz" "New" none =
      (.error .notFound, some (.snap DEMO_IMAGES)) ∧
    deleteImage "zzz" none = some (.snap DEMO_IMAGES) ∧
    (addImage "http://e/p.jpg" "P" 7 none).2 =
      some (.snap (DEMO_IMAGES ++ [{ id := toString 7, url := "http://e/p.jpg", label := "P" }])) := by
  obtain ⟨h1, h2, h3⟩ := C10_mutations_seed_demo none (Or.inl rfl)
  exact ⟨h1 "zzz" "New" (by decide), h2 "zzz" (by decide), h3 "http://e/p.jpg" "P" 7⟩

/-- C9 counterexample: a snapshot whose single record already has id
"42" satisfies the pairwise-distinct hypothesis, yet `addImage` at
clock reading 42 appends a second record with the same id "42",
persisting a snapshot whose ids are no longer pairwise distinct —
refuting the claim that the assigned id never collides. -/
theorem C9_counterexample :
    addImage "http://e/y.jpg" "M" 42
        (some (.snap [{ id := "42", url := "http://e/x.jpg", label := "L" }])) =
      ({ id := "42", url := "http://e/y.jpg", label := "M" },
       some (.snap [ { id := "42", url := "http://e/x.jpg", label := "L" }
                   , { id := "42", url := "http://e/y.jpg", label := "M" } ])) ∧
    (([{ id := "42", url := "http://e/x.jpg", label := "L" }] : List ImageData).map
      (fun img => img.id)).Nodup ∧
    ¬ (([ { id := "42", url := "http://e/x.jpg", label := "L" }
        , { id := "42", url := "http://e/y.jpg", label := "M" } ] : List ImageData).map
      (fun img => img.id)).Nodup :=
  ⟨rfl, by decide, by decide⟩

/-- C9 (amended): `addImage` appends a record whose id is the decimal
string of the clock reading, persists the extended snapshot, and
returns the created record; when that string differs from every
existing id — which the time-based generator does not guarantee — id
uniqueness within the snapshot is preserved. -/
theorem C9_addImage_unique (xs : List ImageData) (url label : String)
    (now : Nat) (hfresh : ∀ img ∈ xs, img.id ≠ toString now)
    (hnodup : (xs.map (fun img => img.id)).Nodup) :
    ∃ newImage : ImageData,
      addImage url label now (some (.snap xs)) =
        (newImage, some (.snap (xs ++ [newImage]))) ∧
      newImage.id = toString now ∧ newImage.url = url ∧ newImage.label = label ∧
      ((xs ++ [newImage]).map (fun img => img.id)).Nodup := by
  refine ⟨{ id := toString now, url := url, label := label }, rfl, rfl, rfl, rfl, ?_⟩
  rw [List.map_append]
  rw [List.nodup_append]
  refine ⟨hnodup, by simp, ?_⟩
  intro a ha hb
  simp only [List.map_cons, List.map_nil, List.mem_singleton] at hb
  obtain ⟨img, himg, hid⟩ := List.mem_map.mp ha
  exact hfresh img himg (hid.trans hb)

/-- Witness for C9 (amended): adding to the demo snapshot at clock
reading 1000 preserves id uniqueness. -/
theorem C9_witness :
    ∃ newImage : ImageData,
      addImage "http://e/n.jpg" "N" 1000 (some (.snap DEMO_IMAGES)) =
        (newImage, some (.snap (DEMO_IMAGES ++ [newImage]))) ∧
      newImage.id = toString 1000 ∧ newImage.url = "http://e/n.jpg" ∧
      newImage.label = "N" ∧
      ((DEMO_IMAGES ++ [newImage]).map (fun img => img.id)).Nodup :=
  C9_addImage_unique DEMO_IMAGES "http://e/n.jpg" "N" 1000 (by decide) (by decide)

theorem parseLine_some {i : Nat} {l : List Char} {img : ImageData}
    (h : parseLine i l = some img) :
    "http".data.isPrefixOf img.url.data = true ∧ img.url ≠ "" ∧
    img.label ≠ "" ∧ img.comments = none := by
  have hmk : ∀ cs : List Char, cs ≠ [] → String.mk cs ≠ "" := by
    intro cs hcs he
    exact hcs (by simpa using congrArg String.data he)
  unfold parseLine at h
  dsimp only at h
  split at h
  · exact absurd h (by simp)
  · split at h
    case isTrue hcond =>
      obtain ⟨hne, hpre⟩ := hcond
      obtain rfl := (Option.some.injEq _ _).mp h
      refine ⟨hpre, hmk _ hne, ?_, rfl⟩
      apply hmk
      split
      · simp
      · assumption
    · exact absurd h (by simp)

theorem mem_parseLines {img : ImageData} :
    ∀ {i : Nat} {ls : List (List Char)}, img ∈ parseLines i ls →
      ∃ j l, parseLine j l = some img := by
  intro i ls
  induction ls generalizing i with
  | nil => intro h; simp [parseLines] at h
  | cons l ls ih =>
    intro h
    rw [parseLines] at h
    cases hp : parseLine i l with
    | some img' =>
      rw [hp] at h
      rcases List.mem_cons.mp h with rfl | h'
      · exact ⟨i, l, hp⟩
      · exact ih h'
    | none =>
      rw [hp] at h
      exact ih h

/-- C8 counterexample: on a row carrying a fourth column whose cleaned
value is `hello`, `parseCSV` produces a record whose comments field is
absent (`none`), not the cleaned fourth-column value — refuting the
claim that the fourth column populates the comments field. -/
theorem C8_counterexample :
    (parseCSV "ID,URL,Label,Comments\n1,http://x/a.jpg,L,\"hello\"").map
      (fun img => img.comments) = [none] ∧
    cleanCell ("\"hello\"".data) = "hello".data ∧
    (none : Option String) ≠ some "hello" :=
  ⟨by decide, by decide, by decide⟩

/-- C8 (amended): CSV parsing ignores any fourth column entirely — the
comments field of every parsed record is left absent, whether a fourth
column is present or not. -/
theorem C8_parseCSV_ignores_comments (s : String) :
    ∀ img ∈ parseCSV s, img.comments = none := by
  intro img h
  unfold parseCSV parseCSVList at h
  obtain ⟨j, l, hj⟩ := mem_parseLines h
  exact (parseLine_some hj).2.2.2

/-- Witness for C8 (amended): the record parsed from a row with a
fourth column has no comments. -/
theorem C8_witness :
    ∃ img, img ∈ parseCSV "ID,URL,Label,Comments\n1,http://x/a.jpg,L,hello" ∧
      img.comments = none := by
  refine ⟨{ id := "1", url := "http://x/a.jpg", label := "L" }, by decide, ?_⟩
  exact C8_parseCSV_ignores_comments "ID,URL,Label,Comments\n1,http://x/a.jpg,L,hello"
    { id := "1", url := "http://x/a.jpg", label := "L" } (by decide)

/-- C3: the CSV parsing contract — the concrete example from the spec
parses to exactly the two stated records; the discarded first line is
irrelevant to the result (for any two newline-free headers); every
accepted record has a non-empty url beginning with `http` and a
non-empty label; a line that is blank after trimming is skipped; a line
whose record is rejected is silently dropped; and an accepted line
yields the record built from the first three cleaned cells, with the
line index substituted for an empty id and `Untitled` for an empty
label. -/
theorem C3_parseCSV_contract :
    (parseCSV "ID,URL,Label\n1,https://x/a.jpg,Foo\n,https://x/b.jpg,\n2,not-a-url,Bar\n" =
      [ { id := "1", url := "https://x/a.jpg", label := "Foo" }
      , { id := "2", url := "https://x/b.jpg", label := "Untitled" } ]) ∧
    (∀ h₁ h₂ body, '\n' ∉ h₁ → '\n' ∉ h₂ →
      parseCSVList (h₁ ++ '\n' :: body) = parseCSVList (h₂ ++ '\n' :: body)) ∧
    (∀ s : String, ∀ img ∈ parseCSV s,
      "http".data.isPrefixOf img.url.data = true ∧ img.url ≠ "" ∧ img.label ≠ "") ∧
    (∀ i l ls, trimList l = [] → parseLines i (l :: ls) = parseLines (i + 1) ls) ∧
    (∀ i l ls, parseLine i l = none → parseLines i (l :: ls) = parseLines (i + 1) ls) ∧
    (∀ i l, trimList l ≠ [] →
      ((splitOnChar ',' (trimList l)).map cleanCell).getD 1 [] ≠ [] →
      "http".data.isPrefixOf (((splitOnChar ',' (trimList l)).map cleanCell).getD 1 []) = true →
      parseLine i l = some
        { id := String.mk (if ((splitOnChar ',' (trimList l)).map cleanCell).getD 0 [] = []
                           then (toString i).data
                           else ((splitOnChar ',' (trimList l)).map cleanCell).getD 0 [])
        , url := String.mk (((splitOnChar ',' (trimList l)).map cleanCell).getD 1 [])
        , label := String.mk (if ((splitOnChar ',' (trimList l)).map cleanCell).getD 2 [] = []
                              then "Untitled".data
                              else ((splitOnChar ',' (trimList l)).map cleanCell).getD 2 [])
        , comments := none }) := by
  refine ⟨by decide, ?_, ?_, ?_, ?_, ?_⟩
  · intro h₁ h₂ body hh₁ hh₂
    unfold parseCSVList
    rw [splitOnChar_append_sep '\n' h₁ body hh₁, splitOnChar_append_sep '\n' h₂ body hh₂]
    rfl
  · intro s img h
    unfold parseCSV parseCSVList at h
    obtain ⟨j, l, hj⟩ := mem_parseLines h
    obtain ⟨h1, h2, h3, _⟩ := parseLine_some hj
    exact ⟨h1, h2, h3⟩
  · intro i l ls hblank
    have hline : parseLine i l = none := by
      unfold parseLine
      rw [if_pos hblank]
    rw [parseLines, hline]
  · intro i l ls hline
    rw [parseLines, hline]
  · intro i l hne hurl hpre
    unfold parseLine
    rw [if_neg hne]
    dsimp only
    rw [if_pos ⟨hurl, hpre⟩]

/-- Witness for C3: each hypothesis-bearing component of the contract,
instantiated on concrete lines of the spec example. -/
theorem C3_witness :
    (parseCSVList ("ID,URL,Label".data ++ '\n' :: "1,https://x/a.jpg,Foo".data) =
      parseCSVList ("OTHER HEADER".data ++ '\n' :: "1,https://x/a.jpg,Foo".data)) ∧
    ("http".data.isPrefixOf
        ({ id := "1", url := "https://x/a.jpg", label := "Foo" } : ImageData).url.data = true ∧
      ({ id := "1", url := "https://x/a.jpg", label := "Foo" } : ImageData).url ≠ "" ∧
      ({ id := "1", url := "https://x/a.jpg", label := "Foo" } : ImageData).label ≠ "") ∧
    (parseLines 2 ("   ".data :: ["2,http://y,Z".data]) =
      parseLines 3 ["2,http://y,Z".data]) ∧
    (parseLines 2 ("2,not-a-url,Bar".data :: ["3,http://y,Z".data]) =
      parseLines 3 ["3,http://y,Z".data]) ∧
    parseLine 2 ",https://x/b.jpg,".data = some
      { id := String.mk (if ((splitOnChar ',' (trimList ",https://x/b.jpg,".data)).map cleanCell).getD 0 [] = []
                         then (toString 2).data
                         else ((splitOnChar ',' (trimList ",https://x/b.jpg,".data)).map cleanCell).getD 0 [])
      , url := String.mk (((splitOnChar ',' (trimList ",https://x/b.jpg,".data)).map cleanCell).getD 1 [])
      , label := String.mk (if ((splitOnChar ',' (trimList ",https://x/b.jpg,".data)).map cleanCell).getD 2 [] = []
                            then "Untitled".data
                            else ((splitOnChar ',' (trimList ",https://x/b.jpg,".data)).map cleanCell).getD 2 [])
      , comments := none } := by
  obtain ⟨_, hhdr, hinv, hblank, hdrop, hrow⟩ := C3_parseCSV_contract
  refine ⟨hhdr "ID,URL,Label".data "OTHER HEADER".data "1,https://x/a.jpg,Foo".data
      (by decide) (by decide), ?_, ?_, ?_, ?_⟩
  · exact hinv "ID,URL,Label\n1,https://x/a.jpg,Foo"
      { id := "1", url := "https://x/a.jpg", label := "Foo" } (by decide)
  · exact hblank 2 "   ".data ["2,http://y,Z".data] (by decide)
  · exact hdrop 2 "2,not-a-url,Bar".data ["3,http://y,Z".data] (by decide)
  · exact hrow 2 ",https://x/b.jpg,".data (by decide) (by decide) (by decide)

theorem findSheetId_match (c : Char) (cs : List Char)
    (hp : sheetLit.isPrefixOf (c :: cs) = true)
    (hne : ((c :: cs).drop sheetLit.length).takeWhile isIdChar ≠ []) :
    findSheetId (c :: cs) =
      some (((c :: cs).drop sheetLit.length).takeWhile isIdChar) := by
  rw [findSheetId, if_pos hp, if_neg hne]

theorem findSheetId_some {l : List Char} {sid : List Char}
    (h : findSheetId l = some sid) :
    sid ≠ [] ∧ (∀ c ∈ sid, isIdChar c = true) ∧
      ∃ pre post, l = pre ++ sheetLit ++ sid ++ post := by
  induction l with
  | nil => exact absurd h (by simp [findSheetId])
  | cons c cs ih =>
    rw [findSheetId] at h
    split at h
    case isTrue hp =>
      dsimp only at h
      split at h
      case isTrue hz =>
        obtain ⟨hne, hmem, pre, post, hdec⟩ := ih h
        exact ⟨hne, hmem, c :: pre, post, by simp [hdec]⟩
      case isFalse hz =>
        obtain rfl := (Option.some.injEq _ _).mp h
        obtain ⟨t, ht⟩ := List.isPrefixOf_iff_prefix.mp hp
        have hdrop : (c :: cs).drop sheetLit.length = t := by
          rw [← ht, List.drop_left]
        rw [hdrop] at hz ⊢
        refine ⟨hz, fun x hx => List.mem_takeWhile_imp hx, [], t.dropWhile isIdChar, ?_⟩
        rw [← ht]
        simp [List.takeWhile_append_dropWhile]
    case isFalse hp =>
      obtain ⟨hne, hmem, pre, post, hdec⟩ := ih h
      exact ⟨hne, hmem, c :: pre, post, by simp [hdec]⟩

theorem findSheetId_cons_isSome (c : Char) {cs : List Char}
    (h : (findSheetId cs).isSome = true) :
    (findSheetId (c :: cs)).isSome = true := by
  rw [findSheetId]
  split
  · dsimp only
    split
    · exact h
    · simp
  · exact h

theorem findSheetId_isSome_append (pre : List Char) :
    ∀ c post, isIdChar c = true →
      (findSheetId (pre ++ sheetLit ++ c :: post)).isSome = true := by
  induction pre with
  | nil =>
    intro c post hc
    have hsplit : ([] : List Char) ++ sheetLit ++ c :: post =
        '/' :: ("spreadsheets/d/".data ++ c :: post) := rfl
    rw [hsplit]
    have hp : sheetLit.isPrefixOf
        ('/' :: ("spreadsheets/d/".data ++ c :: post)) = true := by
      rw [List.isPrefixOf_iff_prefix]
      exact ⟨c :: post, rfl⟩
    have hdrop : ('/' :: ("spreadsheets/d/".data ++ c :: post)).drop
        sheetLit.length = c :: post := by
      have : '/' :: ("spreadsheets/d/".data ++ c :: post) =
          sheetLit ++ c :: post := rfl
      rw [this, List.drop_left]
    have hne : (('/' :: ("spreadsheets/d/".data ++ c :: post)).drop
        sheetLit.length).takeWhile isIdChar ≠ [] := by
      rw [hdrop, List.takeWhile_cons_of_pos hc]
      simp
    rw [findSheetId_match _ _ hp hne]
    rfl
  | cons p pre ih =>
    intro c post hc
    exact findSheetId_cons_isSome p (ih c post hc)

/-- C4: endpoint normalization — `convertToCSVUrl` (a pure function,
hence deterministic) succeeds exactly on the strings containing the
pattern `/spreadsheets/d/` followed by at least one sheet-id character,
fails with the invalid-endpoint error exactly on all other strings, and
on success returns the published-CSV URL built around the extracted
sheet id (a non-empty run of id characters occurring in the input right
after the literal). -/
theorem C4_convertToCSVUrl_spec (s : String) :
    ((∃ u, convertToCSVUrl s = .ok u) ↔ HasSheetPattern s.data) ∧
    (convertToCSVUrl s = .error .invalidEndpoint ↔ ¬ HasSheetPattern s.data) ∧
    (∀ u, convertToCSVUrl s = .ok u →
      ∃ sid, sid ≠ [] ∧ (∀ c ∈ sid, isIdChar c = true) ∧
        (∃ pre post, s.data = pre ++ sheetLit ++ sid ++ post) ∧
        u = "https://docs.google.com/spreadsheets/d/e/" ++ String.mk sid
              ++ "/pub?output=csv") := by
  have hok : ∀ u, convertToCSVUrl s = .ok u →
      ∃ sid, sid ≠ [] ∧ (∀ c ∈ sid, isIdChar c = true) ∧
        (∃ pre post, s.data = pre ++ sheetLit ++ sid ++ post) ∧
        u = "https://docs.google.com/spreadsheets/d/e/" ++ String.mk sid
              ++ "/pub?output=csv" := by
    intro u hu
    unfold convertToCSVUrl at hu
    cases hfind : findSheetId s.data with
    | none => rw [hfind] at hu; exact absurd hu (by simp)
    | some sid =>
      rw [hfind] at hu
      obtain ⟨hne, hmem, pre, post, hdec⟩ := findSheetId_some hfind
      exact ⟨sid, hne, hmem, ⟨pre, post, hdec⟩,
        (Except.ok.inj hu).symm⟩
  have hpat : HasSheetPattern s.data → (findSheetId s.data).isSome = true := by
    rintro ⟨pre, c, post, hdec, hc⟩
    rw [hdec]
    exact findSheetId_isSome_append pre c post hc
  refine ⟨⟨?_, ?_⟩, ⟨?_, ?_⟩, hok⟩
  · rintro ⟨u, hu⟩
    obtain ⟨sid, hne, hmem, ⟨pre, post, hdec⟩, _⟩ := hok u hu
    cases sid with
    | nil => exact absurd rfl hne
    | cons c0 sid' =>
      exact ⟨pre, c0, sid' ++ post,
        by simpa using hdec, hmem c0 (List.mem_cons_self _ _)⟩
  · intro h
    have := hpat h
    cases hfind : findSheetId s.data with
    | none => rw [hfind] at this; simp at this
    | some sid =>
      exact ⟨_, by unfold convertToCSVUrl; rw [hfind]⟩
  · intro herr hp
    have := hpat hp
    cases hfind : findSheetId s.data with
    | none => rw [hfind] at this; simp at this
    | some sid =>
      unfold convertToCSVUrl at herr
      rw [hfind] at herr
      exact absurd herr (by simp)
  · intro h
    cases hfind : findSheetId s.data with
    | none => unfold convertToCSVUrl; rw [hfind]
    | some sid =>
      exfalso
      apply h
      obtain ⟨hne, hmem, pre, post, hdec⟩ := findSheetId_some hfind
      cases sid with
      | nil => exact absurd rfl hne
      | cons c0 sid' =>
        exact ⟨pre, c0, sid' ++ post,
          by simpa using hdec, hmem c0 (List.mem_cons_self _ _)⟩

/-- Witness for C4: the published sample edit URL normalizes to the
published-CSV URL for its sheet id. -/
theorem C4_witness :
    ∃ sid, sid ≠ [] ∧ (∀ c ∈ sid, isIdChar c = true) ∧
      (∃ pre post,
        ("https://docs.google.com/spreadsheets/d/AbC-12_x/edit#gid=0" : String).data =
          pre ++ sheetLit ++ sid ++ post) ∧
      ("https://docs.google.com/spreadsheets/d/e/AbC-12_x/pub?output=csv" : String) =
        "https://docs.google.com/spreadsheets/d/e/" ++ String.mk sid
          ++ "/pub?output=csv" :=
  (C4_convertToCSVUrl_spec "https://docs.google.com/spreadsheets/d/AbC-12_x/edit#gid=0").2.2
    "https://docs.google.com/spreadsheets/d/e/AbC-12_x/pub?output=csv" rfl
